import Mathlib

/-!
Shallow embedding of the three Playwright verification scripts in
`jules-scratch/verification/` of the Karya-Urjatech repository:

* `verify_modal_visible.py`
* `verify_location_dashboard_granted.py`
* `verify_location_flow.py`

Each script is a straight-line sequence of browser-automation calls; we embed
each one as a concrete `List Step`, where `Step` mirrors the automation calls
the scripts issue (context creation, permission grants, geolocation override,
navigation, role/label interactions, visibility expectations, selector waits,
screenshots, and session teardown).  Browser contexts within one script are
numbered by a session id in order of creation (`new_context` order).

Geographic coordinates are exact decimal literals in the source
(20.5937, 78.9629); we represent them exactly as integers in units of
1/10000 degree (205937, 789629), avoiding floating point.

Failure semantics: any automation call may raise (element not found, timeout,
navigation error).  A run is modelled by an oracle `ok : Nat → Bool` giving,
for each step index, whether the application under test satisfied that step;
execution performs the longest all-ok prefix (`execTrace`) — the step at the
first failing index raises and nothing after it runs, exactly the Python
scripts' behaviour, which contain no try/finally.  A run passes
(`runOutcome`) iff every step completed.
-/

namespace KaryaVerify

/-- One browser-automation call, as issued by the scripts.  The first `Nat`
field (where present) is the session id of the browser context the call acts
on; `launchBrowser` and `closeBrowser` act on the browser itself. -/
inductive Step where
  | launchBrowser : Step
  | newContext : Nat → Step
  | grantPermissions : Nat → List String → String → Step
  | setGeolocation : Nat → Int → Int → Step
  | newPage : Nat → Step
  | goto : Nat → String → Step
  | selectOption : Nat → String → Step
  | fillPlaceholder : Nat → String → String → Step
  | expectEnabled : Nat → String → String → Step
  | click : Nat → String → String → Step
  | expectTextVisible : Nat → String → Step
  | waitForSelector : Nat → String → Step
  | screenshot : Nat → String → Step
  | closeContext : Nat → Step
  | closeBrowser : Step
  deriving DecidableEq, Repr

/-- The fixed address every script navigates to and scopes grants to. -/
def appUrl : String := "http://localhost:5173"

/-- Screenshot path used by the denied scenarios. -/
def deniedShotPath : String := "jules-scratch/verification/permission_denied.png"

/-- Screenshot path used by the granted scenarios. -/
def grantedShotPath : String := "jules-scratch/verification/location_dashboard.png"

/-- Latitude 20.5937 in units of 1/10000 degree. -/
def simLat : Int := 205937

/-- Longitude 78.9629 in units of 1/10000 degree. -/
def simLon : Int := 789629

/-- Trace of `verify_modal_visible.py`: launch, fresh context (no permission
call at all), new page, navigate, expect the "Location Access Required" text,
screenshot, close the browser. -/
def verify_modal_visible : List Step :=
  [ .launchBrowser
  , .newContext 0
  , .newPage 0
  , .goto 0 appUrl
  , .expectTextVisible 0 "Location Access Required"
  , .screenshot 0 deniedShotPath
  , .closeBrowser ]

/-- Trace of `verify_location_dashboard_granted.py`: one context with the
geolocation grant and a simulated position, login flow, navigation to the
locations dashboard, wait for the Leaflet map, screenshot, browser close. -/
def verify_location_dashboard_granted : List Step :=
  [ .launchBrowser
  , .newContext 0
  , .grantPermissions 0 ["geolocation"] appUrl
  , .setGeolocation 0 simLat simLon
  , .newPage 0
  , .goto 0 appUrl
  , .selectOption 0 "Admin"
  , .fillPlaceholder 0 "Password" "password"
  , .expectEnabled 0 "button" "Login"
  , .click 0 "button" "Login"
  , .click 0 "button" "Management"
  , .click 0 "button" "📍 Locations"
  , .waitForSelector 0 ".leaflet-container"
  , .screenshot 0 grantedShotPath
  , .closeBrowser ]

/-- Trace of `verify_location_flow.py`: a denied session (session id 0,
explicit empty grant list) that logs in and expects the
"Location Access Required" text, then a granted session (session id 1) that
repeats the granted dashboard flow; each context is closed, then the
browser. -/
def verify_location_flow : List Step :=
  [ .launchBrowser
  , .newContext 0
  , .grantPermissions 0 [] appUrl
  , .newPage 0
  , .goto 0 appUrl
  , .selectOption 0 "Admin"
  , .fillPlaceholder 0 "Password" "password"
  , .click 0 "button" "Login"
  , .expectTextVisible 0 "Location Access Required"
  , .screenshot 0 deniedShotPath
  , .closeContext 0
  , .newContext 1
  , .grantPermissions 1 ["geolocation"] appUrl
  , .setGeolocation 1 simLat simLon
  , .newPage 1
  , .goto 1 appUrl
  , .selectOption 1 "Admin"
  , .fillPlaceholder 1 "Password" "password"
  , .expectEnabled 1 "button" "Login"
  , .click 1 "button" "Login"
  , .click 1 "button" "Management"
  , .click 1 "button" "📍 Locations"
  , .waitForSelector 1 ".leaflet-container"
  , .screenshot 1 grantedShotPath
  , .closeContext 1
  , .closeBrowser ]

/-- The session id a step acts on, when it acts on a specific context. -/
def stepSid : Step → Option Nat
  | .launchBrowser => none
  | .closeBrowser => none
  | .newContext sid => some sid
  | .grantPermissions sid _ _ => some sid
  | .setGeolocation sid _ _ => some sid
  | .newPage sid => some sid
  | .goto sid _ => some sid
  | .selectOption sid _ => some sid
  | .fillPlaceholder sid _ _ => some sid
  | .expectEnabled sid _ _ => some sid
  | .click sid _ _ => some sid
  | .expectTextVisible sid _ => some sid
  | .waitForSelector sid _ => some sid
  | .screenshot sid _ => some sid
  | .closeContext sid => some sid

/-- The sub-trace of steps acting on one browser context. -/
def sessionTrace (sid : Nat) (s : List Step) : List Step :=
  s.filter (fun st => stepSid st == some sid)

/-- Relabel the session id of a step (identity on browser-level steps). -/
def setSid (sid : Nat) : Step → Step
  | .launchBrowser => .launchBrowser
  | .closeBrowser => .closeBrowser
  | .newContext _ => .newContext sid
  | .grantPermissions _ ps o => .grantPermissions sid ps o
  | .setGeolocation _ la lo => .setGeolocation sid la lo
  | .newPage _ => .newPage sid
  | .goto _ u => .goto sid u
  | .selectOption _ l => .selectOption sid l
  | .fillPlaceholder _ p v => .fillPlaceholder sid p v
  | .expectEnabled _ r n => .expectEnabled sid r n
  | .click _ r n => .click sid r n
  | .expectTextVisible _ t => .expectTextVisible sid t
  | .waitForSelector _ sel => .waitForSelector sid sel
  | .screenshot _ p => .screenshot sid p
  | .closeContext _ => .closeContext sid

/-- UI interaction steps: navigation, option selection, filling, clicking. -/
def isInteraction : Step → Bool
  | .goto _ _ | .selectOption _ _ | .fillPlaceholder _ _ _ | .click _ _ _ => true
  | _ => false

/-- Session-configuration steps: permission grant and geolocation override. -/
def isConfig : Step → Bool
  | .grantPermissions _ _ _ | .setGeolocation _ _ _ => true
  | _ => false

/-- Steps of the scenario body visible to the application: interactions plus
the wait condition and the screenshot capture. -/
def isScenarioAction : Step → Bool
  | .goto _ _ | .selectOption _ _ | .fillPlaceholder _ _ _ | .click _ _ _
  | .waitForSelector _ _ | .screenshot _ _ => true
  | _ => false

def isGoto : Step → Bool
  | .goto _ _ => true
  | _ => false

def isScreenshot : Step → Bool
  | .screenshot _ _ => true
  | _ => false

def isCloseBrowser : Step → Bool
  | .closeBrowser => true
  | _ => false

/-- Any teardown step (context close or browser close). -/
def isClose : Step → Bool
  | .closeContext _ | .closeBrowser => true
  | _ => false

def isExpectText : Step → Bool
  | .expectTextVisible _ _ => true
  | _ => false

/-- A click on the control with accessible role `button` and name `Login`. -/
def isLoginClick : Step → Bool
  | .click _ "button" "Login" => true
  | _ => false

/-- Filling the credential input (placeholder `Password`). -/
def isCredentialFill : Step → Bool
  | .fillPlaceholder _ "Password" _ => true
  | _ => false

/-- The enabled-state assertion on the `Login` button. -/
def isLoginEnabledCheck : Step → Bool
  | .expectEnabled _ "button" "Login" => true
  | _ => false

/-- Longest prefix of the step list whose steps all succeed according to the
oracle `ok` (indexed from `i`): the first failing step raises and nothing
after it executes, matching the scripts, which have no try/finally. -/
def execTrace : List Step → (Nat → Bool) → Nat → List Step
  | [], _, _ => []
  | st :: rest, ok, i => if ok i then st :: execTrace rest ok (i + 1) else []

/-- A run passes iff every step of the sequence completed. -/
def runOutcome (s : List Step) (ok : Nat → Bool) : Bool :=
  decide (execTrace s ok 0 = s)

/-- Paths of all screenshot captures in a trace, in order. -/
def screenshotPaths (s : List Step) : List String :=
  s.filterMap fun st =>
    match st with
    | .screenshot _ p => some p
    | _ => none

/-- Effect of a trace on a file system (path to content; contents are tagged
with `runId` so distinct runs are distinguishable): each screenshot step
overwrites its path, and no other step touches the file system. -/
def applyWrites (runId : Nat) (s : List Step) (fs : String → Option Nat) :
    String → Option Nat :=
  s.foldl
    (fun acc st =>
      match st with
      | .screenshot _ p => fun q => if q = p then some runId else acc q
      | _ => acc)
    fs

/-- `precededAll p q seen s` holds when every `q`-step of `s` is preceded
(within `s`, or already by `seen`) by some earlier `p`-step. -/
def precededAll (p q : Step → Bool) : Bool → List Step → Bool
  | _, [] => true
  | seen, st :: rest => (!(q st) || seen) && precededAll p q (seen || p st) rest

/-- `noConfigAfterGoto seen s` holds when no configuration step (grant or
geolocation override) occurs at or after a navigation in `s` (`seen` records
a navigation already encountered). -/
def noConfigAfterGoto : Bool → List Step → Bool
  | _, [] => true
  | seenNav, st :: rest =>
      (!(isConfig st) || !seenNav) && noConfigAfterGoto (seenNav || isGoto st) rest

/-- Interaction steps a trace performs strictly before its first text-visibility
expectation. -/
def interactionsBeforeTextCheck (s : List Step) : List Step :=
  (s.takeWhile fun st => !(isExpectText st)).filter isInteraction

/-- Every navigation in the trace targets `appUrl` and every permission grant
in the trace is scoped to the origin `appUrl`. -/
def navsAndGrantsFixed (s : List Step) : Bool :=
  s.all fun st =>
    match st with
    | .goto _ u => u == appUrl
    | .grantPermissions _ _ o => o == appUrl
    | _ => true

/-! ### General lemmas about the execution semantics -/

/-- The executed steps form a sublist (in fact a prefix) of the script. -/
theorem execTrace_sublist (s : List Step) (ok : Nat → Bool) (i : Nat) :
    (execTrace s ok i).Sublist s := by
  induction s generalizing i with
  | nil => exact List.Sublist.refl []
  | cons st rest ih =>
      by_cases h : ok i = true
      · simpa [execTrace, h] using (ih (i + 1)).cons₂ st
      · simp only [execTrace, h]
        simp

/-- A passing run executed the whole script. -/
theorem execTrace_of_pass (s : List Step) (ok : Nat → Bool)
    (h : runOutcome s ok = true) : execTrace s ok 0 = s :=
  of_decide_eq_true h

/-- Executed traces depend on the oracle only at the indices of the script's
steps. -/
theorem execTrace_congr (s : List Step) (ok₁ ok₂ : Nat → Bool) (i : Nat)
    (h : ∀ j, i ≤ j → j < i + s.length → ok₁ j = ok₂ j) :
    execTrace s ok₁ i = execTrace s ok₂ i := by
  induction s generalizing i with
  | nil => rfl
  | cons st rest ih =>
      have hi : ok₁ i = ok₂ i :=
        h i (Nat.le_refl i) (by simp)
      simp only [execTrace, hi]
      by_cases h2 : ok₂ i = true
      · simp only [h2, if_pos]
        refine congrArg (st :: ·) (ih (i + 1) ?_)
        intro j hj1 hj2
        refine h j (Nat.le_of_succ_le hj1) ?_
        simpa [Nat.add_comm, Nat.add_left_comm, Nat.add_assoc] using hj2
      · simp [h2]

/-- If a path was never captured by a screenshot step of the trace, the run
leaves the file system unchanged at that path: the screenshot writes are the
only durable effect of a trace. -/
theorem applyWrites_frame (r : Nat) (s : List Step) (fs : String → Option Nat)
    (q : String) (hq : ¬ q ∈ screenshotPaths s) : applyWrites r s fs q = fs q := by
  induction s generalizing fs with
  | nil => rfl
  | cons st rest ih =>
      cases st with
      | screenshot sid p =>
          have hq' : ¬ q ∈ p :: screenshotPaths rest := hq
          simp only [List.mem_cons, not_or] at hq'
          have h2 := ih (fun q2 => if q2 = p then some r else fs q2) hq'.2
          calc applyWrites r (Step.screenshot sid p :: rest) fs q
              = applyWrites r rest (fun q2 => if q2 = p then some r else fs q2) q := rfl
            _ = (fun q2 => if q2 = p then some r else fs q2) q := h2
            _ = fs q := by simp [hq'.1]
      | launchBrowser => exact ih fs hq
      | newContext sid => exact ih fs hq
      | grantPermissions sid ps o => exact ih fs hq
      | setGeolocation sid la lo => exact ih fs hq
      | newPage sid => exact ih fs hq
      | goto sid u => exact ih fs hq
      | selectOption sid l => exact ih fs hq
      | fillPlaceholder sid p v => exact ih fs hq
      | expectEnabled sid ro n => exact ih fs hq
      | click sid ro n => exact ih fs hq
      | expectTextVisible sid t => exact ih fs hq
      | waitForSelector sid sel => exact ih fs hq
      | closeContext sid => exact ih fs hq
      | closeBrowser => exact ih fs hq

/-! ### Claim theorems -/

/-- C1, counterexample: the claim says the browser session is closed exactly
once on the failure path as well.  In `verify_modal_visible.py` a run whose
navigation step (index 3) raises executes no close step at all: the scripts
have no try/finally, so the trailing `browser.close()` is skipped. -/
theorem C1_counterexample_abort_skips_close :
    ¬ ((execTrace verify_modal_visible (fun i => decide (i < 3)) 0).countP isCloseBrowser
        = 1) := by
  decide

/-- C1, amended: in each script the browser-close step is the last step of the
sequence, so it executes at most once in any run, and exactly once when every
step succeeds; a failing step aborts the rest of the sequence, skipping the
close (and, in the combined flow, any pending context close). -/
theorem C1_close_at_most_once_exactly_on_success (s : List Step) (ok : Nat → Bool)
    (hs : s = verify_modal_visible ∨ s = verify_location_dashboard_granted ∨
      s = verify_location_flow) :
    (execTrace s ok 0).countP isCloseBrowser ≤ 1 ∧
      (runOutcome s ok = true →
        (execTrace s ok 0).countP isCloseBrowser = 1 ∧
        (execTrace s ok 0).countP isClose = s.countP isClose) := by
  have hsub := (execTrace_sublist s ok 0).countP_le (p := isCloseBrowser)
  refine ⟨?_, fun hp => ?_⟩
  · rcases hs with h | h | h <;> subst h <;> exact le_trans hsub (by decide)
  · rw [execTrace_of_pass s ok hp]
    rcases hs with h | h | h <;> subst h <;> exact ⟨by decide, rfl⟩

/-- C1, witness: instantiation at `verify_modal_visible` with an oracle under
which every step succeeds. -/
theorem C1_witness :
    (execTrace verify_modal_visible (fun _ => true) 0).countP isCloseBrowser ≤ 1 ∧
      (runOutcome verify_modal_visible (fun _ => true) = true →
        (execTrace verify_modal_visible (fun _ => true) 0).countP isCloseBrowser = 1 ∧
        (execTrace verify_modal_visible (fun _ => true) 0).countP isClose =
          verify_modal_visible.countP isClose) :=
  C1_close_at_most_once_exactly_on_success verify_modal_visible (fun _ => true) (Or.inl rfl)

/-- C2: both granted embeddings (the standalone script, session 0, and the
granted session of the combined flow, session 1) configure exactly the grant
list `[geolocation]` at the app origin and the simulated position
(20.5937, 78.9629), and their scenario actions are exactly the ordered
steps navigate, select Admin, fill password, click Login, click Management,
click 📍 Locations, then the wait for `.leaflet-container`, then the
screenshot to `location_dashboard.png`. -/
theorem C2_granted_scenario_steps :
    verify_location_dashboard_granted.filter isConfig =
      [Step.grantPermissions 0 ["geolocation"] appUrl,
       Step.setGeolocation 0 simLat simLon] ∧
    verify_location_dashboard_granted.filter isScenarioAction =
      [Step.goto 0 appUrl, Step.selectOption 0 "Admin",
       Step.fillPlaceholder 0 "Password" "password",
       Step.click 0 "button" "Login", Step.click 0 "button" "Management",
       Step.click 0 "button" "📍 Locations",
       Step.waitForSelector 0 ".leaflet-container",
       Step.screenshot 0 grantedShotPath] ∧
    (sessionTrace 1 verify_location_flow).filter isConfig =
      [Step.grantPermissions 1 ["geolocation"] appUrl,
       Step.setGeolocation 1 simLat simLon] ∧
    (sessionTrace 1 verify_location_flow).filter isScenarioAction =
      [Step.goto 1 appUrl, Step.selectOption 1 "Admin",
       Step.fillPlaceholder 1 "Password" "password",
       Step.click 1 "button" "Login", Step.click 1 "button" "Management",
       Step.click 1 "button" "📍 Locations",
       Step.waitForSelector 1 ".leaflet-container",
       Step.screenshot 1 grantedShotPath] :=
  ⟨rfl, rfl, rfl, rfl⟩

/-- C3, counterexample: the claim says a denied scenario performs only the
navigation step before the visibility check, but the denied session of
`verify_location_flow.py` also selects the role, fills the password and
clicks Login before checking for "Location Access Required". -/
theorem C3_counterexample_denied_half_interacts :
    ¬ (interactionsBeforeTextCheck (sessionTrace 0 verify_location_flow) =
        [Step.goto 0 appUrl]) := by
  decide

/-- C3, amended: the standalone denied script issues no permission call and
performs only the navigation step before the visibility check, while the
denied session of the combined flow explicitly grants the empty set and
performs navigate, select Admin, fill password and click Login before the
check; both save the screenshot to `permission_denied.png`. -/
theorem C3_denied_scenario_steps :
    interactionsBeforeTextCheck verify_modal_visible = [Step.goto 0 appUrl] ∧
    verify_modal_visible.filter isConfig = [] ∧
    interactionsBeforeTextCheck (sessionTrace 0 verify_location_flow) =
      [Step.goto 0 appUrl, Step.selectOption 0 "Admin",
       Step.fillPlaceholder 0 "Password" "password",
       Step.click 0 "button" "Login"] ∧
    (sessionTrace 0 verify_location_flow).filter isConfig =
      [Step.grantPermissions 0 [] appUrl] ∧
    screenshotPaths verify_modal_visible = [deniedShotPath] ∧
    screenshotPaths (sessionTrace 0 verify_location_flow) = [deniedShotPath] :=
  ⟨rfl, rfl, rfl, rfl, rfl, rfl⟩

/-- C4, counterexample: the claim says every Login click is preceded by an
enabled-state check, but the denied session of `verify_location_flow.py`
clicks Login with no `to_be_enabled` assertion anywhere before it. -/
theorem C4_counterexample_click_without_enabled_check :
    ¬ (precededAll isLoginEnabledCheck isLoginClick false
        (sessionTrace 0 verify_location_flow) = true) := by
  decide

/-- C4, amended: in every session that clicks Login, the credential fill
precedes the click; the enabled-state check precedes the click in the
standalone granted script and in the granted session of the combined flow,
but the denied session of the combined flow clicks Login without any
enabled-state check. -/
theorem C4_fill_and_enabled_check_order :
    precededAll isCredentialFill isLoginClick false
      (sessionTrace 0 verify_location_dashboard_granted) = true ∧
    precededAll isCredentialFill isLoginClick false
      (sessionTrace 0 verify_location_flow) = true ∧
    precededAll isCredentialFill isLoginClick false
      (sessionTrace 1 verify_location_flow) = true ∧
    precededAll isLoginEnabledCheck isLoginClick false
      (sessionTrace 0 verify_location_dashboard_granted) = true ∧
    precededAll isLoginEnabledCheck isLoginClick false
      (sessionTrace 1 verify_location_flow) = true ∧
    precededAll isLoginEnabledCheck isLoginClick false
      (sessionTrace 0 verify_location_flow) = false :=
  ⟨rfl, rfl, rfl, rfl, rfl, rfl⟩

/-- C5, counterexample: the claim says each entry point writes exactly one
image file, but the combined flow script captures two screenshots. -/
theorem C5_counterexample_flow_writes_two :
    ¬ (verify_location_flow.countP isScreenshot = 1) := by
  decide

/-- C5, amended: the standalone scripts each capture exactly one screenshot
and the combined flow captures exactly two, one per scenario session; and the
screenshots are the only durable effect: at any path no screenshot step
targets, the flow run leaves the file system unchanged. -/
theorem C5_screenshot_counts_and_frame (r : Nat) (fs : String → Option Nat)
    (q : String) (hq : ¬ q ∈ screenshotPaths verify_location_flow) :
    verify_modal_visible.countP isScreenshot = 1 ∧
    verify_location_dashboard_granted.countP isScreenshot = 1 ∧
    verify_location_flow.countP isScreenshot = 2 ∧
    (sessionTrace 0 verify_location_flow).countP isScreenshot = 1 ∧
    (sessionTrace 1 verify_location_flow).countP isScreenshot = 1 ∧
    applyWrites r verify_location_flow fs q = fs q :=
  ⟨rfl, rfl, rfl, rfl, rfl, applyWrites_frame r _ fs q hq⟩

/-- C5, witness: instantiation at a path no screenshot of the flow targets. -/
theorem C5_witness :
    applyWrites 0 verify_location_flow (fun _ => none) "other.png" = none :=
  (C5_screenshot_counts_and_frame 0 (fun _ => none) "other.png" (by decide)).2.2.2.2.2

/-- C6: within every browser session of every script, no navigation occurs
before the session's permission-grant / geolocation-override configuration:
every configuration step precedes every `goto` of that session (vacuously in
the standalone denied script, which issues no configuration call). -/
theorem C6_config_before_navigation :
    noConfigAfterGoto false (sessionTrace 0 verify_modal_visible) = true ∧
    noConfigAfterGoto false (sessionTrace 0 verify_location_dashboard_granted) = true ∧
    noConfigAfterGoto false (sessionTrace 0 verify_location_flow) = true ∧
    noConfigAfterGoto false (sessionTrace 1 verify_location_flow) = true :=
  ⟨rfl, rfl, rfl, rfl⟩

/-- C7: every navigation of every script targets `http://localhost:5173`, and
every permission grant issued is scoped to exactly that origin. -/
theorem C7_fixed_target_and_origin :
    navsAndGrantsFixed verify_modal_visible = true ∧
    navsAndGrantsFixed verify_location_dashboard_granted = true ∧
    navsAndGrantsFixed verify_location_flow = true :=
  ⟨rfl, rfl, rfl⟩

/-- C8: a scenario run is a deterministic function of the script and the
application's observed responses: two runs of the same script whose oracles
agree on every step index execute the same trace and produce the same
pass/fail outcome. -/
theorem C8_identical_responses_identical_outcome (s : List Step) (ok₁ ok₂ : Nat → Bool)
    (_hs : s = verify_modal_visible ∨ s = verify_location_dashboard_granted ∨
      s = verify_location_flow)
    (h : ∀ i, i < s.length → ok₁ i = ok₂ i) :
    execTrace s ok₁ 0 = execTrace s ok₂ 0 ∧ runOutcome s ok₁ = runOutcome s ok₂ := by
  have he : execTrace s ok₁ 0 = execTrace s ok₂ 0 :=
    execTrace_congr s ok₁ ok₂ 0 (fun j _ hj2 => h j (by simpa using hj2))
  exact ⟨he, by simp [runOutcome, he]⟩

/-- C8, witness: instantiation at `verify_modal_visible` with two oracles that
agree on all seven step indices. -/
theorem C8_witness :
    execTrace verify_modal_visible (fun _ => true) 0 =
      execTrace verify_modal_visible (fun i => decide (i < 100)) 0 ∧
    runOutcome verify_modal_visible (fun _ => true) =
      runOutcome verify_modal_visible (fun i => decide (i < 100)) :=
  C8_identical_responses_identical_outcome verify_modal_visible
    (fun _ => true) (fun i => decide (i < 100)) (Or.inl rfl) (by decide)

/-- C9: the granted session of the combined flow and the standalone granted
script agree step for step: up to the session id and apart from teardown
(the flow closes its context, the standalone closes the browser), their
session traces are equal, and in particular their configuration steps (grant
and simulated position) and scenario actions (interactions, wait condition
and screenshot path) coincide. -/
theorem C9_granted_embeddings_agree :
    ((sessionTrace 1 verify_location_flow).filter
        (fun st => !(isClose st))).map (setSid 0) =
      (sessionTrace 0 verify_location_dashboard_granted).filter
        (fun st => !(isClose st)) ∧
    (sessionTrace 1 verify_location_flow).filter isConfig =
      ((sessionTrace 0 verify_location_dashboard_granted).filter isConfig).map
        (setSid 1) ∧
    (sessionTrace 1 verify_location_flow).filter isScenarioAction =
      ((sessionTrace 0 verify_location_dashboard_granted).filter
        isScenarioAction).map (setSid 1) :=
  ⟨rfl, rfl, rfl⟩

/-- C10: the two denied scenarios both write `permission_denied.png` and the
two granted scenarios both write `location_dashboard.png`; running the flow
script and then the standalone granted script makes the second run overwrite
the first run's dashboard screenshot at the shared path. -/
theorem C10_overlapping_screenshot_paths :
    screenshotPaths verify_modal_visible = [deniedShotPath] ∧
    screenshotPaths verify_location_dashboard_granted = [grantedShotPath] ∧
    screenshotPaths verify_location_flow = [deniedShotPath, grantedShotPath] ∧
    (∀ fs : String → Option Nat,
      applyWrites 1 verify_location_flow fs grantedShotPath = some 1 ∧
      applyWrites 2 verify_location_dashboard_granted
        (applyWrites 1 verify_location_flow fs) grantedShotPath = some 2) :=
  ⟨rfl, rfl, rfl, fun _fs => ⟨rfl, rfl⟩⟩

end KaryaVerify
